import Mathlib

/-!
Shallow embedding of the zerocopy-example crate (src/lib.rs).

The crate decodes a fixed-layout 8-byte record (`ExampleKey`, one big-endian
unsigned 64-bit integer) from a shared byte buffer (`bytes::Bytes`) into a
zero-copy view (`zerocopy::LayoutVerified`), wraps it in a `Request` envelope,
and hands it to a `tower_service::Service` implementation (`ExampleService`).

Modelling decisions:
  - a byte is a `Nat` (values arriving from the network are < 256; bounds are
    carried as hypotheses where a statement needs them);
  - `bytes::Bytes` is its byte content; `Bytes::clone` shares the underlying
    storage and is content-identity;
  - `LayoutVerified<&[u8], ExampleKey>` records the validated byte range;
    `new_unaligned` succeeds exactly when the range length equals
    `size_of::<ExampleKey>() = 8` (the type is `Unaligned`, so no alignment
    check exists);
  - `U64<BigEndian>::get` is `u64::from_be_bytes`, modelled as a left fold;
  - the source leaves the decode error as the unit type (`type Error = ()`
    with the comment "Actual error type goes here"); its single value is
    modelled as the one-constructor inductive `Error.sizeMismatch`;
  - Rust functions that may abort (`Result::unwrap`) are modelled in
    `Option`, with `none` standing for the abort;
  - futures: `futures_util::future::Ready` is a wrapper around the already
    computed value; polling it is always `Poll.ready`.
-/

namespace ZerocopyExample

/-- `bytes::Bytes`: a shared, immutable, reference-counted byte buffer.
Modelled by its byte content. -/
structure Bytes where
  data : List Nat
deriving DecidableEq

/-- `Bytes::clone`: O(1) handle copy sharing the same storage; the content of
the clone is the content of the original. -/
def Bytes.clone (b : Bytes) : Bytes :=
  ⟨b.data⟩

/-- `zerocopy::U64<BigEndian>`: an unaligned big-endian 64-bit integer stored
as its raw bytes. -/
structure U64BE where
  bytes : List Nat
deriving DecidableEq

/-- `U64<BigEndian>::get`, i.e. `u64::from_be_bytes` on the stored bytes. -/
def U64BE.get (u : U64BE) : Nat :=
  u.bytes.foldl (fun acc b => acc * 256 + b) 0

/-- Derived `PartialEq` on `U64<BigEndian>`: compares the raw byte arrays. -/
def U64BE.beq (x y : U64BE) : Bool :=
  x.bytes == y.bytes

/-- `ExampleKey(pub U64<BigEndian>)`: the single-field record type,
`#[repr(C)]`, `FromBytes + AsBytes + Unaligned`, size 8, align 1. -/
structure ExampleKey where
  u0 : U64BE
deriving DecidableEq

/-- Derived `PartialEq` on `ExampleKey`: compares the single field. -/
def ExampleKey.beq (a b : ExampleKey) : Bool :=
  U64BE.beq a.u0 b.u0

/-- `size_of::<ExampleKey>()`: one unaligned big-endian u64, no padding. -/
def exampleKeySize : Nat :=
  8

/-- `zerocopy::LayoutVerified<&[u8], ExampleKey>`: a typed view over a byte
range whose length was checked against `size_of::<ExampleKey>()` at
construction. Modelled by the byte range it points at. -/
structure LayoutVerified where
  bytes : List Nat
deriving DecidableEq

/-- `LayoutVerified::new_unaligned(bytes)`: `Some` view over exactly those
bytes when `bytes.len() == size_of::<ExampleKey>()`, else `None`. No byte is
copied and no alignment is required (`ExampleKey : Unaligned`). -/
def LayoutVerified.newUnaligned (b : List Nat) : Option LayoutVerified :=
  if b.length = exampleKeySize then some ⟨b⟩ else none

/-- Dereferencing the view reinterprets the validated byte range as an
`ExampleKey` (the key field occupies all 8 bytes at offset 0). -/
def LayoutVerified.deref (lv : LayoutVerified) : ExampleKey :=
  ⟨⟨lv.bytes⟩⟩

/-- `Request<K>(pub K)`: transparent single-field carrier. -/
structure Request (K : Type) where
  payload : K
deriving DecidableEq

/-- Derived `PartialEq` on `Request<K>` (for any payload equality `eqK`):
compares the single payload field. -/
def Request.beq {K : Type} (eqK : K → K → Bool) (r s : Request K) : Bool :=
  eqK r.payload s.payload

/-- The decode error type. In the source it is the unit type (`type Error =
()`, "Actual error type goes here"); the spec names its single failure
condition `SizeMismatch`. -/
inductive Error where
  | sizeMismatch
deriving DecidableEq

/-- `TryFrom<&'a Bytes> for Request<LayoutVerified<&'a [u8], ExampleKey>>`:
`LayoutVerified::new_unaligned(bytes.as_ref()).map(Request).ok_or(())`. -/
def tryFrom (bytes : Bytes) : Except Error (Request LayoutVerified) :=
  match (LayoutVerified.newUnaligned bytes.data).map Request.mk with
  | some r => Except.ok r
  | none => Except.error Error.sizeMismatch

/-- Reading the key through a decoded request: dereference the view and read
the big-endian field. -/
def Request.keyValue (r : Request LayoutVerified) : Nat :=
  r.payload.deref.u0.get

/-- `u64::to_be_bytes` / the byte representation `U64::<BigEndian>::new(k)`
stores (`zerocopy` stores exactly the big-endian bytes): the encoder side of
the fixed-width layout. -/
def u64ToBeBytes (k : Nat) : List Nat :=
  [k / 2 ^ 56 % 256, k / 2 ^ 48 % 256, k / 2 ^ 40 % 256, k / 2 ^ 32 % 256,
   k / 2 ^ 24 % 256, k / 2 ^ 16 % 256, k / 2 ^ 8 % 256, k % 256]

/-- `std::convert::Infallible`: the empty error type. -/
inductive Infallible : Type

/-- `ExampleResponse`: opaque response value. -/
structure ExampleResponse
deriving DecidableEq

/-- `ExampleService`: stateless handler. -/
structure ExampleService
deriving DecidableEq

/-- `std::task::Poll`. -/
inductive Poll (α : Type) where
  | ready (value : α)
  | pending
deriving DecidableEq

/-- `std::task::Context`: opaque task context (its only capability, the
waker, is irrelevant to this core). -/
structure Context

/-- `futures_util::future::Ready<T>`: a future that is immediately ready with
its stored value. -/
structure ReadyFuture (α : Type) where
  value : α

/-- Polling a `Ready` future always completes at once with the stored
value. -/
def ReadyFuture.poll {α : Type} (f : ReadyFuture α) (_context : Context) : Poll α :=
  Poll.ready f.value

/-- `futures_util::future::ok(t)`: a `Ready` future resolving to `Ok(t)`. -/
def okFuture {T E : Type} (t : T) : ReadyFuture (Except E T) :=
  ⟨Except.ok t⟩

/-- `ExampleService::poll_ready`: returns `Poll::Ready(Ok(()))`. -/
def ExampleService.pollReady (_s : ExampleService) (_context : Context) :
    Poll (Except Infallible Unit) :=
  Poll.ready (Except.ok ())

/-- `ExampleService::call`: ignores the request and returns
`ok(ExampleResponse)`. -/
def ExampleService.call (_s : ExampleService) (_request : Request LayoutVerified) :
    ReadyFuture (Except Infallible ExampleResponse) :=
  okFuture ExampleResponse.mk

/-- `Result::unwrap`, modelled in `Option`: `none` stands for the process
abort on the error branch. -/
def unwrapExcept {E T : Type} : Except E T → Option T
  | Except.ok t => some t
  | Except.error _ => none

/-- `server_networking_code`: builds a 4-byte buffer `[0xff; 4]`, parses it
with `Request::try_from(...).unwrap()`, then awaits
`service.call(parsed).unwrap()`. Generic over the service via its `call`
function; `none` models a process abort from an `unwrap`. -/
def serverNetworkingCode
    (serviceCall : Request LayoutVerified → ReadyFuture (Except Infallible ExampleResponse)) :
    Option ExampleResponse := do
  let requestConst : List Nat := List.replicate 4 0xff
  let incomingRequest : Bytes := ⟨requestConst⟩
  let parsedRequest ← unwrapExcept (tryFrom incomingRequest)
  let response ← unwrapExcept (serviceCall parsedRequest).value
  pure response

/-- Modelled from the spec: the owning Validated View of section 4.2 of the
spec. The source has no owning decode entry point (its comments describe the
attempt as the unresolved problem the crate illustrates); the spec specifies
`from_owned` as consuming the buffer and, on success, retaining shared
ownership of the buffer handle without copying the bytes. Retaining the
handle is modelled as the view storing the buffer value itself. -/
structure OwnedView where
  buffer : Bytes
deriving DecidableEq

/-- Modelled from the spec: `from_owned(buffer)`: checks
`buffer.len() == Descriptor.size()`; on success returns an owning view
holding the buffer handle; on mismatch returns `SizeMismatch`. -/
def fromOwned (buffer : Bytes) : Except Error OwnedView :=
  if buffer.data.length = exampleKeySize then Except.ok ⟨buffer⟩
  else Except.error Error.sizeMismatch

/-- Modelled from the spec: the field accessor of an owning view reads the
big-endian key directly from the retained buffer's bytes. -/
def OwnedView.get (v : OwnedView) : Nat :=
  (U64BE.mk v.buffer.data).get

/-- Helper: on a byte range of length 8 the decode succeeds with a view over
exactly the input bytes. -/
theorem tryFrom_ok_of_len (b : Bytes) (h : b.data.length = 8) :
    tryFrom b = Except.ok ⟨⟨b.data⟩⟩ := by
  simp [tryFrom, LayoutVerified.newUnaligned, exampleKeySize, h]

/-- Helper: on a byte range whose length is not 8 the decode fails with the
size-mismatch error. -/
theorem tryFrom_error_of_len (b : Bytes) (h : b.data.length ≠ 8) :
    tryFrom b = Except.error Error.sizeMismatch := by
  simp [tryFrom, LayoutVerified.newUnaligned, exampleKeySize, h]

/-- C1: for every byte range `b` with length exactly `exampleKeySize = 8`,
`Request::try_from` succeeds, the view covers exactly the input bytes, and
the field accessor returns the big-endian 64-bit interpretation of those
bytes. -/
theorem C1_decode_success (b : Bytes) (h : b.data.length = 8) :
    tryFrom b = Except.ok ⟨⟨b.data⟩⟩ ∧
    (tryFrom b).map Request.keyValue = Except.ok (U64BE.mk b.data).get := by
  have hok := tryFrom_ok_of_len b h
  exact ⟨hok, by rw [hok]; rfl⟩

/-- Witness for C1: the spec scenario. The 8-byte input
`[0x00,0x00,0x00,0x00,0x00,0x00,0x00,0x01]` decodes successfully and the key
value is 1. -/
theorem C1_decode_success_witness :
    (Bytes.mk [0x00, 0x00, 0x00, 0x00, 0x00, 0x00, 0x00, 0x01]).data.length = 8 ∧
    (tryFrom ⟨[0x00, 0x00, 0x00, 0x00, 0x00, 0x00, 0x00, 0x01]⟩).map Request.keyValue =
      Except.ok 1 := by
  refine ⟨by decide, ?_⟩
  have h := C1_decode_success ⟨[0x00, 0x00, 0x00, 0x00, 0x00, 0x00, 0x00, 0x01]⟩ (by decide)
  rw [h.2]
  rfl

/-- C2: for every byte range `b` whose length differs from the descriptor
size 8, `Request::try_from` fails with the size-mismatch error (the source's
sole error value), producing no view: the error branch carries no view
component at all. -/
theorem C2_decode_mismatch (b : Bytes) (h : b.data.length ≠ 8) :
    tryFrom b = Except.error Error.sizeMismatch :=
  tryFrom_error_of_len b h

/-- Witness for C2: the spec scenario. The 4-byte input
`[0xff,0xff,0xff,0xff]` fails to decode. -/
theorem C2_decode_mismatch_witness :
    (Bytes.mk [0xff, 0xff, 0xff, 0xff]).data.length ≠ 8 ∧
    tryFrom ⟨[0xff, 0xff, 0xff, 0xff]⟩ = Except.error Error.sizeMismatch :=
  ⟨by decide, C2_decode_mismatch ⟨[0xff, 0xff, 0xff, 0xff]⟩ (by decide)⟩

/-- C9: `ExampleService::poll_ready` returns `Poll::Ready(Ok(()))` for every
service value and every polling context: the handler is unconditionally
ready. -/
theorem C9_poll_ready_always_ready (s : ExampleService) (context : Context) :
    s.pollReady context = Poll.ready (Except.ok ()) :=
  rfl

/-- C10: `ExampleService::call` never fails: its error type `Infallible` is
uninhabited, and for every service value and request it returns an
immediately-ready future resolving to `Ok(ExampleResponse)`, independent of
the request's key bytes. -/
theorem C10_call_never_fails (s : ExampleService) (r : Request LayoutVerified)
    (context : Context) :
    (s.call r).poll context = Poll.ready (Except.ok ExampleResponse.mk) ∧
    ∀ e : Infallible, False :=
  ⟨rfl, by intro _e; cases _e⟩

/-- C3 counterexample: the claim says no failure in this core aborts the
process, in particular a size-mismatched decode reaching
`server_networking_code` is surfaced as a typed result. In the source,
`server_networking_code` builds the 4-byte buffer `[0xff; 4]`, so
`Request::try_from` returns `Err`, and the code calls `.unwrap()` on it,
which aborts. With the abort modelled as `none`, running the pipeline with
the crate's own `ExampleService` yields `none`, not a surfaced typed
result. -/
theorem C3_counterexample :
    serverNetworkingCode (ExampleService.call ExampleService.mk) = none := by
  rfl

/-- C3 amended: the decoder itself represents every failure as a typed
result (`try_from` either succeeds or returns the size-mismatch error value,
never aborting), but `server_networking_code` is not abort-free: it calls
`.unwrap()` on the decode of its hardcoded 4-byte buffer, which fails, so
the pipeline aborts (modelled as `none`) for every service it is given. -/
theorem C3_amended_unwrap_aborts :
    (∀ b : Bytes, (tryFrom b).isOk = true ∨ tryFrom b = Except.error Error.sizeMismatch) ∧
    ∀ serviceCall : Request LayoutVerified → ReadyFuture (Except Infallible ExampleResponse),
      serverNetworkingCode serviceCall = none := by
  constructor
  · intro b
    by_cases h : b.data.length = 8
    · left
      rw [tryFrom_ok_of_len b h]
      rfl
    · right
      exact tryFrom_error_of_len b h
  · intro serviceCall
    rfl

/-- C4: round-trip identity: encoding a key value below `2 ^ 64` into its
8-byte big-endian buffer and decoding that buffer with `Request::try_from`
succeeds and yields the original value through the field accessor. -/
theorem C4_roundtrip (k : Nat) (h : k < 2 ^ 64) :
    (tryFrom ⟨u64ToBeBytes k⟩).map Request.keyValue = Except.ok k := by
  have hlen : (u64ToBeBytes k).length = 8 := by
    simp [u64ToBeBytes]
  have hok := tryFrom_ok_of_len ⟨u64ToBeBytes k⟩ hlen
  rw [hok]
  show Except.ok ((U64BE.mk (u64ToBeBytes k)).get) = Except.ok k
  have hval : (U64BE.mk (u64ToBeBytes k)).get = k := by
    simp only [U64BE.get, u64ToBeBytes, List.foldl]
    norm_num
    omega
  rw [hval]

/-- Witness for C4: round trip at the concrete key value 258. -/
theorem C4_roundtrip_witness :
    258 < 2 ^ 64 ∧ (tryFrom ⟨u64ToBeBytes 258⟩).map Request.keyValue = Except.ok 258 :=
  ⟨by norm_num, C4_roundtrip 258 (by norm_num)⟩

/-- C5: `from_owned` consumes a byte buffer, checks its length against the
descriptor size 8; on success it returns an owning view that retains exactly
the input buffer handle (no byte is transformed or copied: the view stores
the buffer itself); on mismatch it returns the size-mismatch error. -/
theorem C5_from_owned (buffer : Bytes) :
    (buffer.data.length = exampleKeySize → fromOwned buffer = Except.ok ⟨buffer⟩) ∧
    (buffer.data.length ≠ exampleKeySize →
      fromOwned buffer = Except.error Error.sizeMismatch) := by
  constructor
  · intro h
    simp [fromOwned, h]
  · intro h
    simp [fromOwned, h]

/-- Witness for C5: an 8-byte buffer is accepted and the returned owning
view holds that very buffer; a 2-byte buffer is rejected with the
size-mismatch error. -/
theorem C5_from_owned_witness :
    (Bytes.mk [1, 2, 3, 4, 5, 6, 7, 8]).data.length = exampleKeySize ∧
    fromOwned ⟨[1, 2, 3, 4, 5, 6, 7, 8]⟩ = Except.ok ⟨⟨[1, 2, 3, 4, 5, 6, 7, 8]⟩⟩ ∧
    (Bytes.mk [1, 2]).data.length ≠ exampleKeySize ∧
    fromOwned ⟨[1, 2]⟩ = Except.error Error.sizeMismatch :=
  ⟨by decide,
   (C5_from_owned ⟨[1, 2, 3, 4, 5, 6, 7, 8]⟩).1 (by decide),
   by decide,
   (C5_from_owned ⟨[1, 2]⟩).2 (by decide)⟩

/-- C6: representation independence of the two view flavors: for buffers
with equal byte content, decoding through the owning entry point
(`from_owned`) and through the borrowing entry point (`try_from`) gives the
same outcome, and in the success case the two views expose equal field
values. -/
theorem C6_owning_borrowing_agree (b b' : Bytes) (h : b.data = b'.data) :
    (fromOwned b).map OwnedView.get = (tryFrom b').map Request.keyValue := by
  by_cases hlen : b'.data.length = 8
  · have hb : fromOwned b = Except.ok ⟨b⟩ := by
      simp [fromOwned, exampleKeySize, h, hlen]
    rw [hb, tryFrom_ok_of_len b' hlen]
    show Except.ok ((U64BE.mk b.data).get) = Except.ok ((U64BE.mk b'.data).get)
    rw [h]
  · have hb : fromOwned b = Except.error Error.sizeMismatch := by
      simp [fromOwned, exampleKeySize, h, hlen]
    rw [hb, tryFrom_error_of_len b' hlen]
    rfl

/-- Witness for C6: two distinct buffer handles over the same 8 bytes; the
owning and the borrowing view both succeed and expose the same key value. -/
theorem C6_owning_borrowing_agree_witness :
    (Bytes.mk [0, 0, 0, 0, 0, 0, 1, 0]).data = (Bytes.mk [0, 0, 0, 0, 0, 0, 1, 0]).data ∧
    (fromOwned ⟨[0, 0, 0, 0, 0, 0, 1, 0]⟩).map OwnedView.get =
      (tryFrom ⟨[0, 0, 0, 0, 0, 0, 1, 0]⟩).map Request.keyValue :=
  ⟨rfl,
   C6_owning_borrowing_agree ⟨[0, 0, 0, 0, 0, 0, 1, 0]⟩ ⟨[0, 0, 0, 0, 0, 0, 1, 0]⟩ rfl⟩

/-- C7: cloning a byte buffer shares the underlying storage (the clone's
content is the original's content), and decoding the clone and the original
independently gives identical results, hence views with equal field values.
Decoding is a pure function of the buffer content: it takes the buffer by
shared reference and returns without changing it, so neither decode mutates
the shared storage — in the embedding, the buffer value a decode reads is
never replaced. -/
theorem C7_clone_decode (b : Bytes) :
    (Bytes.clone b).data = b.data ∧
    tryFrom (Bytes.clone b) = tryFrom b ∧
    (tryFrom (Bytes.clone b)).map Request.keyValue = (tryFrom b).map Request.keyValue :=
  ⟨rfl, rfl, rfl⟩

/-- C8: the `Request` envelope is structurally transparent: its derived
equality applied to `Request(a)` and `Request(b)` is exactly the payload
equality of `a` and `b`, and for the key payload it holds precisely when the
two keys are equal — `Request` imposes no behavior of its own. -/
theorem C8_request_transparent (a b : ExampleKey) :
    Request.beq ExampleKey.beq ⟨a⟩ ⟨b⟩ = ExampleKey.beq a b ∧
    (Request.beq ExampleKey.beq ⟨a⟩ ⟨b⟩ = true ↔ a = b) := by
  refine ⟨rfl, ?_⟩
  show ExampleKey.beq a b = true ↔ a = b
  cases a with
  | mk ua =>
    cases b with
    | mk ub =>
      cases ua with
      | mk xs =>
        cases ub with
        | mk ys =>
          simp [ExampleKey.beq, U64BE.beq]

end ZerocopyExample
